import Mathlib

/-!
Shallow embedding of `backend/app/main.py` of the todo-fast-next repository:
a multi-user TODO list service with HTTP Basic authentication. The database
(two SQLite tables, `users` and `todos`) is modelled as lists of records plus
fresh-id counters; each FastAPI handler becomes a pure function over that
state, returning `Except HTTPException` where the handler can raise.
Machine words inside the SHA-256 password hash are `Nat` reduced `% 2^32`.
-/

set_option maxRecDepth 16384

namespace TodoApp

/-! SHA-256, embedding `hashlib.sha256(password.encode()).hexdigest()`.
Bytes and 32-bit words are `Nat`, with overflow made explicit by `% 2 ^ 32`. -/

/-- UTF-8 encoding of one character (the semantics of Python `str.encode()`). -/
def charUtf8 (c : Char) : List Nat :=
  let n := c.toNat
  if n < 0x80 then [n]
  else if n < 0x800 then
    [0xC0 ||| (n >>> 6), 0x80 ||| (n &&& 0x3F)]
  else if n < 0x10000 then
    [0xE0 ||| (n >>> 12), 0x80 ||| ((n >>> 6) &&& 0x3F), 0x80 ||| (n &&& 0x3F)]
  else
    [0xF0 ||| (n >>> 18), 0x80 ||| ((n >>> 12) &&& 0x3F),
     0x80 ||| ((n >>> 6) &&& 0x3F), 0x80 ||| (n &&& 0x3F)]

/-- UTF-8 byte sequence of a string (Python `password.encode()`). -/
def utf8Bytes (s : String) : List Nat :=
  s.data.foldr (fun c acc => charUtf8 c ++ acc) []

/-- Right rotation of a 32-bit word. -/
def rotr32 (n x : Nat) : Nat :=
  ((x >>> n) ||| (x <<< (32 - n))) % 2 ^ 32

/-- Concatenation of the 64 big-endian SHA-256 round constants (the first 32
fractional bits of the cube roots of the first 64 primes, FIPS 180-4
section 4.2.2) into one 2048-bit number. -/
def sha256KPacked : Nat :=
  0x428a2f9871374491b5c0fbcfe9b5dba53956c25b59f111f1923f82a4ab1c5ed5d807aa9812835b01243185be550c7dc372be5d7480deb1fe9bdc06a7c19bf174e49b69c1efbe47860fc19dc6240ca1cc2de92c6f4a7484aa5cb0a9dc76f988da983e5152a831c66db00327c8bf597fc7c6e00bf3d5a7914706ca63511429296727b70a852e1b21384d2c6dfc53380d13650a7354766a0abb81c2c92e92722c85a2bfe8a1a81a664bc24b8b70c76c51a3d192e819d6990624f40e3585106aa07019a4c1161e376c082748774c34b0bcb5391c0cb34ed8aa4a5b9cca4f682e6ff3748f82ee78a5636f84c878148cc7020890befffaa4506cebbef9a3f7c67178f2

/-- Concatenation of the 8 big-endian initial hash words (the first 32
fractional bits of the square roots of the first 8 primes, FIPS 180-4
section 5.3.3) into one 256-bit number. -/
def sha256H0Packed : Nat :=
  0x6a09e667bb67ae853c6ef372a54ff53a510e527f9b05688c1f83d9ab5be0cd19

/-- Unpack `k` big-endian 32-bit words out of a packed constant. -/
def unpackWords (k : Nat) (packed : Nat) : List Nat :=
  (List.range k).map (fun i => (packed >>> (32 * (k - 1 - i))) &&& 0xFFFFFFFF)

/-- The 64 SHA-256 round constants. -/
def sha256K : List Nat := unpackWords 64 sha256KPacked

/-- The SHA-256 initial hash value. -/
def sha256H0 : List Nat := unpackWords 8 sha256H0Packed

/-- Big-endian byte expansion of `n` on `k` bytes. -/
def bigEndianBytes (k : Nat) (n : Nat) : List Nat :=
  match k with
  | 0 => []
  | k + 1 => bigEndianBytes k (n >>> 8) ++ [n &&& 0xFF]

/-- SHA-256 padding: append `0x80`, zero bytes, and the 64-bit big-endian bit length,
reaching a multiple of 64 bytes. -/
def sha256Pad (msg : List Nat) : List Nat :=
  let len := msg.length
  let zeros := (64 - (len + 9) % 64) % 64
  msg ++ [0x80] ++ List.replicate zeros 0 ++ bigEndianBytes 8 (len * 8)

/-- Group a byte list into big-endian 32-bit words. -/
def bytesToWords : List Nat → List Nat
  | b0 :: b1 :: b2 :: b3 :: rest =>
    ((((b0 <<< 8) ||| b1) <<< 8 ||| b2) <<< 8 ||| b3) :: bytesToWords rest
  | _ => []

/-- Split a byte list into 64-byte blocks; the fuel bounds the recursion and the
initial call supplies `l.length`, which always suffices. -/
def blocksAux : Nat → List Nat → List (List Nat)
  | 0, _ => []
  | _, [] => []
  | fuel + 1, l => l.take 64 :: blocksAux fuel (l.drop 64)

def blocks (l : List Nat) : List (List Nat) := blocksAux l.length l

def smallSigma0 (x : Nat) : Nat := rotr32 7 x ^^^ rotr32 18 x ^^^ (x >>> 3)

def smallSigma1 (x : Nat) : Nat := rotr32 17 x ^^^ rotr32 19 x ^^^ (x >>> 10)

def bigSigma0 (x : Nat) : Nat := rotr32 2 x ^^^ rotr32 13 x ^^^ rotr32 22 x

def bigSigma1 (x : Nat) : Nat := rotr32 6 x ^^^ rotr32 11 x ^^^ rotr32 25 x

def chFn (x y z : Nat) : Nat := (x &&& y) ^^^ ((x ^^^ 0xFFFFFFFF) &&& z)

def majFn (x y z : Nat) : Nat := (x &&& y) ^^^ (x &&& z) ^^^ (y &&& z)

/-- Extend a 16-word block to the 64-word message schedule. -/
def extendSchedule (w16 : List Nat) : List Nat :=
  (List.range 48).foldl
    (fun w _ =>
      let n := w.length
      let wi := (smallSigma1 (w.getD (n - 2) 0) + w.getD (n - 7) 0 +
                 smallSigma0 (w.getD (n - 15) 0) + w.getD (n - 16) 0) % 2 ^ 32
      w ++ [wi])
    w16

/-- One SHA-256 compression round on the 8-word working state. -/
def compressStep (k wi : Nat) (st : List Nat) : List Nat :=
  match st with
  | [a, b, c, d, e, f, g, h] =>
    let t1 := (h + bigSigma1 e + chFn e f g + k + wi) % 2 ^ 32
    let t2 := (bigSigma0 a + majFn a b c) % 2 ^ 32
    [(t1 + t2) % 2 ^ 32, a, b, c, (d + t1) % 2 ^ 32, e, f, g]
  | st => st

/-- Compress one 64-byte block into the running 8-word hash value. -/
def compressBlock (h : List Nat) (block : List Nat) : List Nat :=
  let w := extendSchedule (bytesToWords block)
  let st := (List.zip sha256K w).foldl (fun st kw => compressStep kw.1 kw.2 st) h
  (List.zip h st).map (fun p => (p.1 + p.2) % 2 ^ 32)

/-- SHA-256 digest of a byte sequence, as eight 32-bit words. -/
def sha256Words (msg : List Nat) : List Nat :=
  (blocks (sha256Pad msg)).foldl compressBlock sha256H0

/-- Lower-case hex character for a nibble. -/
def hexChar (n : Nat) : Char :=
  if n < 10 then Char.ofNat (48 + n) else Char.ofNat (87 + n)

/-- Eight-hex-digit rendering of a 32-bit word. -/
def wordHex (n : Nat) : String :=
  String.mk ((List.range 8).map (fun i => hexChar ((n >>> (28 - 4 * i)) &&& 0xF)))

/-- Lower-case hex digest of a byte sequence (Python `.hexdigest()`). -/
def sha256Hex (msg : List Nat) : String :=
  String.join ((sha256Words msg).map wordHex)

/-- FIPS 180 test vector: digest of "abc". -/
theorem sha256_vector_abc :
    sha256Hex (utf8Bytes "abc") =
      "ba7816bf8f01cfea414140de5dae2223b00361a396177a9cb410ff61f20015ad" := by
  decide

/-- Test vector: digest of the empty string. -/
theorem sha256_vector_empty :
    sha256Hex (utf8Bytes "") =
      "e3b0c44298fc1c149afbf4c8996fb92427ae41e4649b934ca495991b7852b855" := by
  decide

/-! Data model. `UserDB` and `TodoDB` mirror the SQLAlchemy table rows;
`UserCreate` and `TodoCreate` mirror the Pydantic request bodies;
`HTTPBasicCredentials` is the Basic-Auth credential pair. The database is a
pair of row lists plus the fresh primary-key counters the engine maintains. -/

/-- Row of the `users` table. -/
structure UserDB where
  id : Nat
  username : String
  hashed_password : String
deriving DecidableEq, Repr

/-- Row of the `todos` table. -/
structure TodoDB where
  id : Nat
  title : String
  completed : Bool
  owner : String
deriving DecidableEq, Repr

/-- Request body of `POST /users/`: exactly a username and a password. -/
structure UserCreate where
  username : String
  password : String
deriving DecidableEq, Repr

/-- Request body of `POST /todos` and `PUT /todos/{id}`: exactly a title and a
completed flag (defaulting to false), with no owner or id field. -/
structure TodoCreate where
  title : String
  completed : Bool := false
deriving DecidableEq, Repr

/-- Basic-Auth credentials extracted from a request. -/
structure HTTPBasicCredentials where
  username : String
  password : String
deriving DecidableEq, Repr

/-- Database state: the two tables plus the fresh-id counters of the engine. -/
structure Database where
  users : List UserDB
  todos : List TodoDB
  nextUserId : Nat
  nextTodoId : Nat
deriving DecidableEq, Repr

/-- Freshly created database (the source drops and recreates all tables on
startup); SQLite assigns integer primary keys starting from 1. -/
def Database.empty : Database := ⟨[], [], 1, 1⟩

/-- All stored todo ids are strictly below the fresh-id counter: the engine
never reuses a primary key. -/
def Database.todoIdsFresh (db : Database) : Prop :=
  ∀ t ∈ db.todos, t.id < db.nextTodoId

/-- Todo primary keys are pairwise distinct. -/
def Database.uniqueTodoIds (db : Database) : Prop :=
  db.todos.Pairwise (fun a b => a.id ≠ b.id)

/-- Usernames are pairwise distinct (the `unique=True` column constraint). -/
def Database.uniqueUsernames (db : Database) : Prop :=
  db.users.Pairwise (fun a b => a.username ≠ b.username)

instance (db : Database) : Decidable db.todoIdsFresh :=
  inferInstanceAs (Decidable (∀ t ∈ db.todos, t.id < db.nextTodoId))

instance (db : Database) : Decidable db.uniqueTodoIds :=
  inferInstanceAs (Decidable (db.todos.Pairwise _))

instance (db : Database) : Decidable db.uniqueUsernames :=
  inferInstanceAs (Decidable (db.users.Pairwise _))

/-- An `HTTPException` raised by a handler: status code and detail message. -/
structure HTTPException where
  status_code : Nat
  detail : String
deriving DecidableEq, Repr

instance exceptDecEq {ε α : Type} [DecidableEq ε] [DecidableEq α] :
    DecidableEq (Except ε α) := fun x y =>
  match x, y with
  | .error a, .error b =>
    if h : a = b then isTrue (by rw [h])
    else isFalse (by intro hh; cases hh; exact h rfl)
  | .error _, .ok _ => isFalse (by intro hh; cases hh)
  | .ok _, .error _ => isFalse (by intro hh; cases hh)
  | .ok a, .ok b =>
    if h : a = b then isTrue (by rw [h])
    else isFalse (by intro hh; cases hh; exact h rfl)

/-- The 401 raised by `get_current_user`. -/
def unauthorizedError : HTTPException := ⟨401, "Incorrect username or password"⟩

/-- The 404 raised by the todo handlers. -/
def notFoundError : HTTPException := ⟨404, "Todo not found"⟩

/-- The 400 raised by `create_user` on a duplicate username. -/
def conflictError : HTTPException := ⟨400, "Username already registered"⟩

/-! Helper functions and handlers, one Lean function per Python function. -/

/-- Embedding of `get_password_hash`: `hashlib.sha256(password.encode()).hexdigest()`. -/
def get_password_hash (password : String) : String :=
  sha256Hex (utf8Bytes password)

/-- Embedding of `verify_password`: digest of the plaintext equals the stored digest. -/
def verify_password (plain_password hashed_password : String) : Bool :=
  get_password_hash plain_password == hashed_password

/-- Embedding of `get_current_user`: resolve the Basic-Auth credentials to a username, or
raise 401. The query `db.query(UserDB).filter(username == ...).first()` is the
first list element with that username. -/
def get_current_user (credentials : HTTPBasicCredentials) (db : Database) :
    Except HTTPException String :=
  match db.users.find? (fun u => u.username == credentials.username) with
  | none => .error unauthorizedError
  | some user =>
    if verify_password credentials.password user.hashed_password then
      .ok user.username
    else
      .error unauthorizedError

/-- Embedding of `create_user` (`POST /users/`): reject a taken username with 400, else
insert a new row with the hashed password and return it with the new state. -/
def create_user (user : UserCreate) (db : Database) :
    Except HTTPException (UserDB × Database) :=
  match db.users.find? (fun u => u.username == user.username) with
  | some _ => .error conflictError
  | none =>
    let hashed_password := get_password_hash user.password
    let db_user : UserDB := ⟨db.nextUserId, user.username, hashed_password⟩
    .ok (db_user,
      { db with users := db.users ++ [db_user], nextUserId := db.nextUserId + 1 })

/-- Embedding of `read_todos` (`GET /todos`): all todos whose owner is the current user. -/
def read_todos (current_user : String) (db : Database) : List TodoDB :=
  db.todos.filter (fun t => t.owner == current_user)

/-- The query shared by the get/update/delete handlers:
`.filter(TodoDB.id == todo_id).filter(TodoDB.owner == current_user).first()`. -/
def find_owned_todo (todo_id : Nat) (current_user : String) (db : Database) :
    Option TodoDB :=
  ((db.todos.filter (fun t => t.id == todo_id)).filter
    (fun t => t.owner == current_user)).head?

/-- Embedding of `read_todo` (`GET /todos/\x7btodo_id\x7d`): the owned todo, or 404. -/
def read_todo (todo_id : Nat) (current_user : String) (db : Database) :
    Except HTTPException TodoDB :=
  match find_owned_todo todo_id current_user db with
  | none => .error notFoundError
  | some todo => .ok todo

/-- Embedding of `create_todo` (`POST /todos`): `TodoDB(**todo.dict(), owner=current_user)`
— a fresh id, the title and completed of the body, and the caller as owner. -/
def create_todo (todo : TodoCreate) (current_user : String) (db : Database) :
    TodoDB × Database :=
  let db_todo : TodoDB := ⟨db.nextTodoId, todo.title, todo.completed, current_user⟩
  (db_todo,
    { db with todos := db.todos ++ [db_todo], nextTodoId := db.nextTodoId + 1 })

/-- The `setattr` loop of `update_todo`: `todo.dict()` has exactly the keys
`title` and `completed`, so exactly those two fields are assigned. -/
def setTodoFields (db_todo : TodoDB) (todo : TodoCreate) : TodoDB :=
  { db_todo with title := todo.title, completed := todo.completed }

/-- Embedding of `update_todo` (`PUT /todos/\x7btodo_id\x7d`): 404 if the owned row is absent,
else assign title and completed on that row and commit. -/
def update_todo (todo_id : Nat) (todo : TodoCreate) (current_user : String)
    (db : Database) : Except HTTPException (TodoDB × Database) :=
  match find_owned_todo todo_id current_user db with
  | none => .error notFoundError
  | some db_todo =>
    let updated := setTodoFields db_todo todo
    .ok (updated,
      { db with todos := db.todos.map (fun t => if t.id == todo_id then updated else t) })

/-- Embedding of `delete_todo` (`DELETE /todos/\x7btodo_id\x7d`): 404 if the owned row is absent,
else delete that row (by primary key) and commit. -/
def delete_todo (todo_id : Nat) (current_user : String) (db : Database) :
    Except HTTPException Database :=
  match find_owned_todo todo_id current_user db with
  | none => .error notFoundError
  | some _ =>
    .ok { db with todos := db.todos.filter (fun t => t.id != todo_id) }

/-! Helper lemmas about the query combinators. -/

/-- The head of a filtered list is the first element satisfying the test. -/
theorem head?_filter_eq_find? {α : Type} (p : α → Bool) (l : List α) :
    (l.filter p).head? = l.find? p := by
  induction l with
  | nil => rfl
  | cons a t ih =>
    by_cases h : p a <;> simp [List.filter_cons, List.find?_cons, h, ih]

/-- The two chained filters of the handlers compute a single `find?`. -/
theorem find_owned_todo_eq_find? (todo_id : Nat) (current_user : String)
    (db : Database) :
    find_owned_todo todo_id current_user db =
      db.todos.find? (fun t => t.owner == current_user && t.id == todo_id) := by
  unfold find_owned_todo
  rw [List.filter_filter, head?_filter_eq_find?]

/-- Lemma: `find_owned_todo` is `none` when no stored todo has both the id and the owner. -/
theorem find_owned_todo_eq_none {todo_id : Nat} {current_user : String}
    {db : Database}
    (h : ∀ t ∈ db.todos, ¬(t.id = todo_id ∧ t.owner = current_user)) :
    find_owned_todo todo_id current_user db = none := by
  rw [find_owned_todo_eq_find?]
  apply List.find?_eq_none.mpr
  intro t ht
  have := h t ht
  simp only [Bool.and_eq_true, beq_iff_eq]
  tauto

/-- What a successful `find_owned_todo` returns: a stored todo with the
requested id, owned by the current user. -/
theorem find_owned_todo_eq_some {todo_id : Nat} {current_user : String}
    {db : Database} {t : TodoDB}
    (h : find_owned_todo todo_id current_user db = some t) :
    t ∈ db.todos ∧ t.id = todo_id ∧ t.owner = current_user := by
  rw [find_owned_todo_eq_find?] at h
  have hmem := List.mem_of_find?_eq_some h
  have hp := List.find?_some h
  simp only [Bool.and_eq_true, beq_iff_eq] at hp
  exact ⟨hmem, hp.2, hp.1⟩

/-- Two members of a list pairwise-distinct under a key agree iff their keys do. -/
theorem pairwise_key_eq {α β : Type} (key : α → β) {l : List α} {a b : α}
    (hp : l.Pairwise (fun x y => key x ≠ key y))
    (ha : a ∈ l) (hb : b ∈ l) (hk : key a = key b) : a = b := by
  induction l with
  | nil => cases ha
  | cons x t ih =>
    rcases List.pairwise_cons.mp hp with ⟨hx, ht⟩
    rcases List.mem_cons.mp ha with rfl | ha₁
    · rcases List.mem_cons.mp hb with rfl | hb₁
      · rfl
      · exact absurd hk (hx b hb₁)
    · rcases List.mem_cons.mp hb with rfl | hb₁
      · exact absurd hk.symm (hx a ha₁)
      · exact ih ht ha₁ hb₁

/-- A `find?` over an append skips a first part that has no match. -/
theorem find?_append_of_none {α : Type} {p : α → Bool} {l₁ : List α}
    (l₂ : List α) (h : ∀ x ∈ l₁, p x = false) :
    (l₁ ++ l₂).find? p = l₂.find? p := by
  induction l₁ with
  | nil => rfl
  | cons a t ih =>
    have ha := h a (List.mem_cons_self a t)
    simp only [List.cons_append, List.find?_cons, ha]
    exact ih (fun x hx => h x (List.mem_cons_of_mem a hx))

/-! Claim theorems. -/

/-- C1: a todo owned by user A is invisible to a distinct user B: `read_todos`
for B lists only B-owned todos, and get, update and delete by B on the id of the todo of A
all fail with the same 404 that a completely nonexistent id produces — B cannot
distinguish the record of A from an absent one. -/
theorem C1_owner_isolation (A B : String) (t : TodoDB) (tc : TodoCreate)
    (db : Database) (hBA : B ≠ A) (ht : t ∈ db.todos) (hown : t.owner = A)
    (huniq : db.uniqueTodoIds) :
    (∀ u ∈ read_todos B db, u.owner = B) ∧
    read_todo t.id B db = .error notFoundError ∧
    update_todo t.id tc B db = .error notFoundError ∧
    delete_todo t.id B db = .error notFoundError ∧
    read_todo t.id B { db with todos := db.todos.filter (fun u => u.id != t.id) } =
      read_todo t.id B db ∧
    update_todo t.id tc B { db with todos := db.todos.filter (fun u => u.id != t.id) } =
      update_todo t.id tc B db ∧
    delete_todo t.id B { db with todos := db.todos.filter (fun u => u.id != t.id) } =
      delete_todo t.id B db := by
  have hnone : find_owned_todo t.id B db = none := by
    apply find_owned_todo_eq_none
    intro u hu ⟨hid, howner⟩
    have : u = t := pairwise_key_eq TodoDB.id huniq hu ht hid
    subst this
    exact hBA (howner.symm.trans hown)
  have hnone₂ :
      find_owned_todo t.id B { db with todos := db.todos.filter (fun u => u.id != t.id) } = none := by
    apply find_owned_todo_eq_none
    intro u hu ⟨hid, _⟩
    have := (List.mem_filter.mp hu).2
    simp only [bne_iff_ne, ne_eq] at this
    exact this hid
  refine ⟨?_, ?_, ?_, ?_, ?_, ?_, ?_⟩
  · intro u hu
    exact beq_iff_eq.mp (List.mem_filter.mp hu).2
  · simp [read_todo, hnone]
  · simp [update_todo, hnone]
  · simp [delete_todo, hnone]
  · simp [read_todo, hnone, hnone₂]
  · simp [update_todo, hnone, hnone₂]
  · simp [delete_todo, hnone, hnone₂]

/-- Witness for C1 at a concrete state: alice owns todo 1, bob sees nothing. -/
theorem C1_owner_isolation_witness :
    ("bob" ≠ "alice" ∧
      (⟨1, "buy milk", false, "alice"⟩ : TodoDB) ∈
        (Database.mk [] [⟨1, "buy milk", false, "alice"⟩] 1 2).todos ∧
      (Database.mk [] [⟨1, "buy milk", false, "alice"⟩] 1 2).uniqueTodoIds) ∧
    read_todo 1 "bob" (Database.mk [] [⟨1, "buy milk", false, "alice"⟩] 1 2) =
      .error notFoundError := by
  refine ⟨⟨by decide, by decide, by decide⟩, ?_⟩
  exact (C1_owner_isolation "alice" "bob" ⟨1, "buy milk", false, "alice"⟩
    ⟨"x", false⟩ (Database.mk [] [⟨1, "buy milk", false, "alice"⟩] 1 2)
    (by decide) (by decide) (by decide) (by decide)).2.1

/-- C2: with unique usernames, authentication succeeds with the presented
username as identity iff a stored user carries that username and the SHA-256
digest of the presented password equals the stored digest; a successful result
is always the presented username; everything else is rejected with 401. -/
theorem C2_auth_characterization (credentials : HTTPBasicCredentials)
    (db : Database) (huniq : db.uniqueUsernames) :
    (get_current_user credentials db = .ok credentials.username ↔
      ∃ u ∈ db.users, u.username = credentials.username ∧
        get_password_hash credentials.password = u.hashed_password) ∧
    (∀ s, get_current_user credentials db = .ok s → s = credentials.username) ∧
    ((¬ ∃ u ∈ db.users, u.username = credentials.username ∧
        get_password_hash credentials.password = u.hashed_password) →
      get_current_user credentials db = .error unauthorizedError) := by
  cases hf : db.users.find? (fun u => u.username == credentials.username) with
  | none =>
    have hnomatch := List.find?_eq_none.mp hf
    have hnone : ∀ u ∈ db.users, u.username ≠ credentials.username := by
      intro u hu
      have := hnomatch u hu
      simpa using this
    refine ⟨?_, ?_, ?_⟩
    · constructor
      · intro h
        simp [get_current_user, hf] at h
      · intro ⟨u, hu, hname, _⟩
        exact absurd hname (hnone u hu)
    · intro s hs
      simp [get_current_user, hf] at hs
    · intro _
      simp [get_current_user, hf]
  | some user =>
    have hmem := List.mem_of_find?_eq_some hf
    have hname : user.username = credentials.username := by
      have := List.find?_some hf
      simpa using this
    by_cases hv : verify_password credentials.password user.hashed_password
    · have hok : get_current_user credentials db = .ok user.username := by
        simp [get_current_user, hf, hv]
      have hhash : get_password_hash credentials.password = user.hashed_password :=
        beq_iff_eq.mp hv
      refine ⟨?_, ?_, ?_⟩
      · constructor
        · intro _
          exact ⟨user, hmem, hname, hhash⟩
        · intro _
          rw [hok, hname]
      · intro s hs
        rw [hok] at hs
        cases hs
        exact hname
      · intro hno
        exact absurd ⟨user, hmem, hname, hhash⟩ hno
    · have herr : get_current_user credentials db = .error unauthorizedError := by
        simp [get_current_user, hf, hv]
      have hnoex : ¬ ∃ u ∈ db.users, u.username = credentials.username ∧
          get_password_hash credentials.password = u.hashed_password := by
        intro ⟨v, hvmem, hvname, hvhash⟩
        have : v = user :=
          pairwise_key_eq UserDB.username huniq hvmem hmem (hvname.trans hname.symm)
        subst this
        exact hv (beq_iff_eq.mpr hvhash)
      refine ⟨?_, ?_, ?_⟩
      · constructor
        · intro h
          rw [herr] at h
          cases h
        · intro hex
          exact absurd hex hnoex
      · intro s hs
        rw [herr] at hs
        cases hs
      · intro _
        exact herr

/-- Witness for C2: one registered user, correct credentials accepted. -/
theorem C2_auth_characterization_witness :
    (Database.mk [⟨1, "alice", get_password_hash "pw1"⟩] [] 2 1).uniqueUsernames ∧
    get_current_user ⟨"alice", "pw1"⟩
        (Database.mk [⟨1, "alice", get_password_hash "pw1"⟩] [] 2 1) =
      .ok "alice" := by
  refine ⟨by decide, ?_⟩
  exact (C2_auth_characterization ⟨"alice", "pw1"⟩
    (Database.mk [⟨1, "alice", get_password_hash "pw1"⟩] [] 2 1)
    (by decide)).1.mpr
    ⟨⟨1, "alice", get_password_hash "pw1"⟩, by simp, rfl, rfl⟩

/-- C3: the owner of a created todo is always the authenticated caller — the
request body (`TodoCreate`) carries no owner field, and every todo present
after the call is either a pre-existing one or owned by the caller. -/
theorem C3_owner_forced (todo : TodoCreate) (current_user : String)
    (db : Database) :
    (create_todo todo current_user db).1.owner = current_user ∧
    ∀ t ∈ (create_todo todo current_user db).2.todos,
      t ∈ db.todos ∨ t.owner = current_user := by
  refine ⟨rfl, ?_⟩
  intro t ht
  rcases List.mem_append.mp ht with h | h
  · exact Or.inl h
  · rcases List.mem_singleton.mp h with rfl
    exact Or.inr rfl

/-- Witness for C3 at a concrete creation on the empty database. -/
theorem C3_owner_forced_witness :
    (create_todo ⟨"x", false⟩ "alice" Database.empty).1.owner = "alice" ∧
    ∀ t ∈ (create_todo ⟨"x", false⟩ "alice" Database.empty).2.todos,
      t ∈ Database.empty.todos ∨ t.owner = "alice" :=
  C3_owner_forced ⟨"x", false⟩ "alice" Database.empty

/-- C4: after a successful registration, registering the same username again
fails with the 400 conflict error, and the stored digest for that username is
still the digest of the password of the first registration. -/
theorem C4_duplicate_registration (u1 u2 : UserCreate) (db : Database)
    (r : UserDB × Database) (hname : u2.username = u1.username)
    (h1 : create_user u1 db = .ok r) :
    create_user u2 r.2 = .error conflictError ∧
    ∀ w ∈ r.2.users, w.username = u1.username →
      w.hashed_password = get_password_hash u1.password := by
  cases hf : db.users.find? (fun u => u.username == u1.username) with
  | some w => simp [create_user, hf] at h1
  | none =>
    simp only [create_user, hf] at h1
    rw [Except.ok.injEq] at h1
    subst h1
    constructor
    · simp [create_user, hname, hf]
    · intro w hw hwname
      rcases List.mem_append.mp hw with h | h
      · have := List.find?_eq_none.mp hf w h
        simp only [beq_iff_eq] at this
        exact absurd hwname (by simpa using this)
      · rcases List.mem_singleton.mp h with rfl
        rfl

/-- Witness for C4: registering "alice" twice, second attempt conflicts. -/
theorem C4_duplicate_registration_witness :
    (("alice" : String) = "alice" ∧
      create_user ⟨"alice", "pw1"⟩ Database.empty =
        .ok (⟨1, "alice", get_password_hash "pw1"⟩,
          Database.mk [⟨1, "alice", get_password_hash "pw1"⟩] [] 2 1)) ∧
    create_user ⟨"alice", "pw2"⟩
        (Database.mk [⟨1, "alice", get_password_hash "pw1"⟩] [] 2 1) =
      .error conflictError := by
  refine ⟨⟨rfl, rfl⟩, ?_⟩
  exact (C4_duplicate_registration ⟨"alice", "pw1"⟩ ⟨"alice", "pw2"⟩
    Database.empty
    (⟨1, "alice", get_password_hash "pw1"⟩,
      Database.mk [⟨1, "alice", get_password_hash "pw1"⟩] [] 2 1)
    rfl rfl).1

/-- C5: round-trip — creating a todo and immediately reading the returned id
back as the same caller yields exactly the created todo, whose title and
completed flag are those of the request and whose owner is the caller. -/
theorem C5_create_get_roundtrip (todo : TodoCreate) (current_user : String)
    (db : Database) (hfresh : db.todoIdsFresh) :
    read_todo (create_todo todo current_user db).1.id current_user
        (create_todo todo current_user db).2 =
      .ok (create_todo todo current_user db).1 ∧
    (create_todo todo current_user db).1.title = todo.title ∧
    (create_todo todo current_user db).1.completed = todo.completed ∧
    (create_todo todo current_user db).1.owner = current_user := by
  have hold : ∀ x ∈ db.todos,
      ((fun t => t.owner == current_user && t.id == db.nextTodoId) x) = false := by
    intro x hx
    have : (x.id == db.nextTodoId) = false := by
      simp only [beq_eq_false_iff_ne, ne_eq]
      exact Nat.ne_of_lt (hfresh x hx)
    simp [this]
  have hfind : find_owned_todo db.nextTodoId current_user
      (create_todo todo current_user db).2 =
      some ⟨db.nextTodoId, todo.title, todo.completed, current_user⟩ := by
    rw [find_owned_todo_eq_find?]
    show (db.todos ++ [(⟨db.nextTodoId, todo.title, todo.completed, current_user⟩ : TodoDB)]).find? _ = _
    rw [find?_append_of_none _ hold]
    simp [List.find?]
  refine ⟨?_, rfl, rfl, rfl⟩
  show read_todo db.nextTodoId current_user (create_todo todo current_user db).2 = _
  rw [read_todo, hfind]
  rfl

/-- Witness for C5: create on the empty database, read id 1 back. -/
theorem C5_create_get_roundtrip_witness :
    Database.empty.todoIdsFresh ∧
    read_todo (create_todo ⟨"x", false⟩ "alice" Database.empty).1.id "alice"
        (create_todo ⟨"x", false⟩ "alice" Database.empty).2 =
      .ok (create_todo ⟨"x", false⟩ "alice" Database.empty).1 :=
  ⟨by decide, (C5_create_get_roundtrip ⟨"x", false⟩ "alice" Database.empty
    (by decide)).1⟩

/-- C6: a successful update is a full replacement — the returned todo carries
the title and completed flag of the request (and the original id and owner), and in
the new state every todo with that id carries the new title and completed. In
particular resending the old title with a new flag leaves the title unchanged
and updates the flag. -/
theorem C6_update_full_replacement (todo_id : Nat) (tc : TodoCreate)
    (cu : String) (db : Database) (r : TodoDB × Database)
    (h : update_todo todo_id tc cu db = .ok r) :
    r.1.title = tc.title ∧ r.1.completed = tc.completed ∧
    r.1.id = todo_id ∧ r.1.owner = cu ∧
    ∀ t ∈ r.2.todos, t.id = todo_id →
      t.title = tc.title ∧ t.completed = tc.completed := by
  cases hf : find_owned_todo todo_id cu db with
  | none => simp [update_todo, hf] at h
  | some db_todo =>
    obtain ⟨hmem, hid, hown⟩ := find_owned_todo_eq_some hf
    simp only [update_todo, hf] at h
    rw [Except.ok.injEq] at h
    subst h
    refine ⟨rfl, rfl, hid, hown, ?_⟩
    intro t ht htid
    rcases List.mem_map.mp ht with ⟨t0, ht0, hmap⟩
    by_cases hc : t0.id = todo_id
    · simp only [hc, beq_self_eq_true, if_true] at hmap
      subst hmap
      exact ⟨rfl, rfl⟩
    · rw [if_neg (by simpa using hc)] at hmap
      subst hmap
      exact absurd htid hc

/-- Witness for C6: updating todo 1 of alice with a new title and flag. -/
theorem C6_update_full_replacement_witness :
    update_todo 1 ⟨"buy milk and eggs", true⟩ "alice"
        (Database.mk [] [⟨1, "buy milk", false, "alice"⟩] 1 2) =
      .ok (⟨1, "buy milk and eggs", true, "alice"⟩,
        Database.mk [] [⟨1, "buy milk and eggs", true, "alice"⟩] 1 2) ∧
    (⟨1, "buy milk and eggs", true, "alice"⟩ : TodoDB).title =
      "buy milk and eggs" := by
  refine ⟨by decide, ?_⟩
  exact (C6_update_full_replacement 1 ⟨"buy milk and eggs", true⟩ "alice"
    (Database.mk [] [⟨1, "buy milk", false, "alice"⟩] 1 2)
    (⟨1, "buy milk and eggs", true, "alice"⟩,
      Database.mk [] [⟨1, "buy milk and eggs", true, "alice"⟩] 1 2)
    (by decide)).1

/-- C7: after a successful delete, reading the same id back as the same caller
yields 404, and deleting it a second time also yields 404 (no crash, no other
outcome). -/
theorem C7_delete_then_get (todo_id : Nat) (cu : String) (db db2 : Database)
    (h : delete_todo todo_id cu db = .ok db2) :
    read_todo todo_id cu db2 = .error notFoundError ∧
    delete_todo todo_id cu db2 = .error notFoundError := by
  cases hf : find_owned_todo todo_id cu db with
  | none => simp [delete_todo, hf] at h
  | some t =>
    simp only [delete_todo, hf] at h
    rw [Except.ok.injEq] at h
    subst h
    have hnone : find_owned_todo todo_id cu
        { db with todos := db.todos.filter (fun t => t.id != todo_id) } = none := by
      apply find_owned_todo_eq_none
      intro u hu ⟨hid, _⟩
      have := (List.mem_filter.mp hu).2
      simp only [bne_iff_ne, ne_eq] at this
      exact this hid
    exact ⟨by rw [read_todo, hnone], by rw [delete_todo, hnone]⟩

/-- Witness for C7: delete the only todo of alice, then get and delete again. -/
theorem C7_delete_then_get_witness :
    delete_todo 1 "alice" (Database.mk [] [⟨1, "buy milk", false, "alice"⟩] 1 2) =
      .ok (Database.mk [] [] 1 2) ∧
    read_todo 1 "alice" (Database.mk [] [] 1 2) = .error notFoundError ∧
    delete_todo 1 "alice" (Database.mk [] [] 1 2) = .error notFoundError := by
  refine ⟨by decide, ?_⟩
  exact C7_delete_then_get 1 "alice"
    (Database.mk [] [⟨1, "buy milk", false, "alice"⟩] 1 2)
    (Database.mk [] [] 1 2) (by decide)

/-- C8: frame property of update — a successful update leaves the user table
and both id counters untouched, returns a todo with the original id and owner
(the `setattr` loop ranges over exactly the `title` and `completed` keys of
`TodoCreate`), and the new todo table is the old one with only the targeted
title and completed of the targeted row replaced; every other row is unchanged. -/
theorem C8_update_frame (todo_id : Nat) (tc : TodoCreate) (cu : String)
    (db : Database) (r : TodoDB × Database) (huniq : db.uniqueTodoIds)
    (h : update_todo todo_id tc cu db = .ok r) :
    r.2.users = db.users ∧
    r.2.nextUserId = db.nextUserId ∧
    r.2.nextTodoId = db.nextTodoId ∧
    r.1.id = todo_id ∧ r.1.owner = cu ∧
    r.2.todos = db.todos.map (fun t =>
      if t.id = todo_id then { t with title := tc.title, completed := tc.completed }
      else t) := by
  cases hf : find_owned_todo todo_id cu db with
  | none => simp [update_todo, hf] at h
  | some db_todo =>
    obtain ⟨hmem, hid, hown⟩ := find_owned_todo_eq_some hf
    simp only [update_todo, hf] at h
    rw [Except.ok.injEq] at h
    subst h
    refine ⟨rfl, rfl, rfl, hid, hown, ?_⟩
    apply List.map_congr_left
    intro t ht
    by_cases hc : t.id = todo_id
    · have : t = db_todo := pairwise_key_eq TodoDB.id huniq ht hmem (by rw [hc, hid])
      subst this
      rw [if_pos (by simpa using hc), if_pos hc]
      rfl
    · rw [if_neg (by simpa using hc), if_neg hc]

/-- Witness for C8 on a two-todo state: only the targeted row changes. -/
theorem C8_update_frame_witness :
    ((Database.mk [⟨1, "alice", "d"⟩]
        [⟨1, "a", false, "alice"⟩, ⟨2, "b", false, "alice"⟩] 2 3).uniqueTodoIds ∧
      update_todo 1 ⟨"c", true⟩ "alice"
          (Database.mk [⟨1, "alice", "d"⟩]
            [⟨1, "a", false, "alice"⟩, ⟨2, "b", false, "alice"⟩] 2 3) =
        .ok (⟨1, "c", true, "alice"⟩,
          Database.mk [⟨1, "alice", "d"⟩]
            [⟨1, "c", true, "alice"⟩, ⟨2, "b", false, "alice"⟩] 2 3)) ∧
    (Database.mk [⟨1, "alice", "d"⟩]
        [⟨1, "c", true, "alice"⟩, ⟨2, "b", false, "alice"⟩] 2 3).users =
      (Database.mk [⟨1, "alice", "d"⟩]
        [⟨1, "a", false, "alice"⟩, ⟨2, "b", false, "alice"⟩] 2 3).users := by
  refine ⟨⟨by decide, by decide⟩, ?_⟩
  exact (C8_update_frame 1 ⟨"c", true⟩ "alice"
    (Database.mk [⟨1, "alice", "d"⟩]
      [⟨1, "a", false, "alice"⟩, ⟨2, "b", false, "alice"⟩] 2 3)
    (⟨1, "c", true, "alice"⟩,
      Database.mk [⟨1, "alice", "d"⟩]
        [⟨1, "c", true, "alice"⟩, ⟨2, "b", false, "alice"⟩] 2 3)
    (by decide) (by decide)).1

/-- C9: the password hash is a pure function of the plaintext alone (SHA-256,
no salt, no per-user or per-run input): any two successful registrations with
the same password — different usernames, different databases, different runs —
store the identical digest. -/
theorem C9_unsalted_deterministic_hash (u1 u2 : UserCreate)
    (db1 db2 : Database) (r1 r2 : UserDB × Database)
    (hpw : u1.password = u2.password)
    (h1 : create_user u1 db1 = .ok r1) (h2 : create_user u2 db2 = .ok r2) :
    r1.1.hashed_password = get_password_hash u1.password ∧
    r2.1.hashed_password = get_password_hash u2.password ∧
    r1.1.hashed_password = r2.1.hashed_password := by
  cases hf1 : db1.users.find? (fun u => u.username == u1.username) with
  | some w => simp [create_user, hf1] at h1
  | none =>
    simp only [create_user, hf1] at h1
    rw [Except.ok.injEq] at h1
    subst h1
    cases hf2 : db2.users.find? (fun u => u.username == u2.username) with
    | some w => simp [create_user, hf2] at h2
    | none =>
      simp only [create_user, hf2] at h2
      rw [Except.ok.injEq] at h2
      subst h2
      exact ⟨rfl, rfl, by rw [hpw]⟩

/-- Witness for C9: alice and bob register with the same password in two
different runs and receive identical digests. -/
theorem C9_unsalted_deterministic_hash_witness :
    (("pw" : String) = "pw" ∧
      create_user ⟨"alice", "pw"⟩ Database.empty =
        .ok (⟨1, "alice", get_password_hash "pw"⟩,
          Database.mk [⟨1, "alice", get_password_hash "pw"⟩] [] 2 1) ∧
      create_user ⟨"bob", "pw"⟩ Database.empty =
        .ok (⟨1, "bob", get_password_hash "pw"⟩,
          Database.mk [⟨1, "bob", get_password_hash "pw"⟩] [] 2 1)) ∧
    (⟨1, "alice", get_password_hash "pw"⟩ : UserDB).hashed_password =
      (⟨1, "bob", get_password_hash "pw"⟩ : UserDB).hashed_password := by
  refine ⟨⟨rfl, rfl, rfl⟩, ?_⟩
  exact (C9_unsalted_deterministic_hash ⟨"alice", "pw"⟩ ⟨"bob", "pw"⟩
    Database.empty Database.empty
    (⟨1, "alice", get_password_hash "pw"⟩,
      Database.mk [⟨1, "alice", get_password_hash "pw"⟩] [] 2 1)
    (⟨1, "bob", get_password_hash "pw"⟩,
      Database.mk [⟨1, "bob", get_password_hash "pw"⟩] [] 2 1)
    rfl rfl rfl).2.2

/-- C10: registration validates nothing beyond the duplicate-username check —
for any strings, including empty ones, it succeeds whenever the username is
free, storing exactly the new row with the hashed password. -/
theorem C10_no_input_validation (u : UserCreate) (db : Database)
    (h : ∀ w ∈ db.users, w.username ≠ u.username) :
    create_user u db =
      .ok (⟨db.nextUserId, u.username, get_password_hash u.password⟩,
        { db with
          users := db.users ++
            [⟨db.nextUserId, u.username, get_password_hash u.password⟩],
          nextUserId := db.nextUserId + 1 }) := by
  have hf : db.users.find? (fun w => w.username == u.username) = none := by
    apply List.find?_eq_none.mpr
    intro w hw
    simpa using h w hw
  simp [create_user, hf]

/-- Witness for C10: registering with empty username and password succeeds. -/
theorem C10_no_input_validation_witness :
    (∀ w ∈ Database.empty.users, w.username ≠ ("" : String)) ∧
    create_user ⟨"", ""⟩ Database.empty =
      .ok (⟨1, "", get_password_hash ""⟩,
        Database.mk [⟨1, "", get_password_hash ""⟩] [] 2 1) :=
  ⟨by decide, C10_no_input_validation ⟨"", ""⟩ Database.empty (by decide)⟩

end TodoApp
